import Mathlib

/-!
Verification development for the CAPP turning planner.

Shallow embedding of the turnability / process-plan core:
* `CAPP` embeds `capp_turning_planner.py` (`TurningProcessPlan`): the
  machinability flags computed in `__init__`, `_format_dimensions`,
  `_detect_features`, `_needs_finish_pass`, `_calculate_spindle_speed`,
  `_estimate_turning_time`, `generate_operations`, `generate_tool_list`
  and `run_validation_checks`.
* `StepAnalyzer` embeds the axis-fitting part of `step_analyzer.py`
  (`_normalize_vector`, `_dot`, `_compute_best_fit_axis`).

Modelling conventions:
* Python dict reads of the form `d.get(key, default)` are modelled with
  `Option` fields (`none` = key absent) and `Option.getD`.
* Python floats are modelled as exact rationals (`ℚ`) in the planner and
  as real numbers (`ℝ`) in the axis fitter (which uses `sqrt`, `cos`,
  `acos`); `int(x)` is truncation toward zero (`pyInt`), `x // 2` on a
  nonnegative int is `Int.fdiv`, and `round(x, n)` is round-half-to-even
  at `n` decimals (`pyRound`).
* The `"type"` tags of operations (string literals `"facing"`,
  `"turning"`, `"finishing"`, `"boring"`, `"threading"`, `"grooving"`,
  `"parting"` in the source) are modelled by the closed enumeration
  `OpKind`.
* Purely presentational strings that no logic reads (`description`
  fields of operations, `detail` fields of validation messages, the
  `reasons` lists and `metrics` block of feature detection) are omitted;
  every field that any branch condition or claim reads is kept.
-/

namespace CAPP

/-- Python `int(q)` for a rational: truncation toward zero. -/
def pyInt (q : ℚ) : ℤ := if 0 ≤ q then ⌊q⌋ else ⌈q⌉

/-- Python `round` to the nearest integer, half to even (banker's rounding),
on an exact rational value. -/
def pyRoundHalfEven (q : ℚ) : ℤ :=
  let f := q.floor
  let r := q - (f : ℚ)
  if r < 1 / 2 then f
  else if 1 / 2 < r then f + 1
  else if f % 2 = 0 then f else f + 1

/-- Python `round(q, nd)` on an exact rational value. -/
def pyRound (nd : ℕ) (q : ℚ) : ℚ := (pyRoundHalfEven (q * 10 ^ nd) : ℚ) / 10 ^ nd

/-- The values read out of `machinability.turning.strict_checks` via
`strict_checks.get(name, False)`: a key that is absent reads as `false`. -/
structure StrictChecks where
  cylindrical_dominance : Bool
  circular_edge_support : Bool
  reasonable_aspect_ratio : Bool
deriving DecidableEq

/-- The values read out of `machinability.turning`; `strict_checks = none`
models `turning_data.get("strict_checks", {}) or {}` being empty/absent. -/
structure TurningData where
  score : Option ℚ
  strict_turnable : Option Bool
  strict_checks : Option StrictChecks
deriving DecidableEq

/-- Everything `TurningProcessPlan` reads from the analysis dict
(`analyze_step_file` output). `Option` fields model possibly-absent
dict keys; `milling_score` is `machinability["3_axis_milling"]["score"]`,
the fallback `_get_turning_score` uses when `"turning"` is absent. -/
structure Analysis where
  turning : Option TurningData := none
  milling_score : Option ℚ := none
  dim_x : Option ℚ := none
  dim_y : Option ℚ := none
  dim_z : Option ℚ := none
  dim_volume : Option ℚ := none
  surf_cylinder : Option ℤ := none
  surf_cone : Option ℤ := none
  surf_torus : Option ℤ := none
  surf_plane : Option ℤ := none
  geom_faces : Option ℤ := none
  geom_edges : Option ℤ := none
  cylindrical_faces : Option ℤ := none
deriving DecidableEq

/-- One entry of `MACHINE_PROFILES`. -/
structure MachineLimits where
  max_rpm : ℤ
  max_power_kw : ℚ
  max_turning_diameter_mm : ℚ
  max_turning_length_mm : ℚ
deriving DecidableEq

def MACHINE_PROFILES : List (String × MachineLimits) :=
  [("ACE Designers CNC Turning Center", ⟨4000, 14.9, 262, 572⟩),
   ("Jyoti CNC Turning Center", ⟨4000, 14.9, 260, 600⟩),
   ("LMW CNC Turning Center", ⟨4000, 15, 300, 650⟩),
   ("BFW CNC Turning Center", ⟨3500, 12, 280, 600⟩),
   ("Haas ST Series", ⟨4000, 14.9, 262, 572⟩),
   ("Mazak QUICK TURN Series", ⟨5000, 18.5, 300, 600⟩),
   ("Okuma CNC Lathe", ⟨4500, 18.5, 300, 600⟩),
   ("DMG MORI Turning Center", ⟨5000, 18.5, 300, 600⟩),
   ("DN Solutions Lynx/Puma", ⟨4500, 15, 280, 600⟩),
   ("HMT CNC Lathe", ⟨1800, 11.2, 406, 762⟩)]

/-- `MACHINE_PROFILES[DEFAULT_MACHINE_PROFILE]`, the ACE Designers profile. -/
def DEFAULT_MACHINE_LIMITS : MachineLimits := ⟨4000, 14.9, 262, 572⟩

/-- `TurningProcessPlan._machine_limits`. -/
def machine_limits (profile : String) : MachineLimits :=
  (MACHINE_PROFILES.lookup profile).getD DEFAULT_MACHINE_LIMITS

def MATERIAL_SPEED_FACTORS : List (String × ℚ) :=
  [("EN8 / EN8D", 1), ("EN1A (Free-cutting steel)", 1.15),
   ("EN19 / 42CrMo4", 0.8), ("C45 / CK45", 0.95), ("20MnCr5 / EN353", 0.9),
   ("SS304", 0.65), ("SS316 / 316L", 0.6), ("SS410", 0.85),
   ("Aluminum 6061 / 6082", 1.7), ("Brass (CW614N / CuZn39Pb3)", 1.8)]

/-- `MATERIAL_SPEED_FACTORS.get(material_profile, 1.0)`. -/
def material_factor (material_profile : String) : ℚ :=
  (MATERIAL_SPEED_FACTORS.lookup material_profile).getD 1

def SPECIFIC_POWER_KW_PER_CM3_MIN : List (String × ℚ) :=
  [("EN8 / EN8D", 0.05), ("EN1A (Free-cutting steel)", 0.045),
   ("EN19 / 42CrMo4", 0.065), ("C45 / CK45", 0.055), ("20MnCr5 / EN353", 0.06),
   ("SS304", 0.07), ("SS316 / 316L", 0.075), ("SS410", 0.06),
   ("Aluminum 6061 / 6082", 0.03), ("Brass (CW614N / CuZn39Pb3)", 0.03)]

/-- `SPECIFIC_POWER_KW_PER_CM3_MIN.get(material_profile, 0.05)`. -/
def specific_power (material_profile : String) : ℚ :=
  (SPECIFIC_POWER_KW_PER_CM3_MIN.lookup material_profile).getD 0.05

/-- The constructor arguments of `TurningProcessPlan` other than the
analysis dict (the LLM model name is advisory-only and omitted). -/
structure PlanConfig where
  material_profile : String
  machine_profile : String
  tolerance_mm : Option ℚ
  surface_roughness_ra : Option ℚ

/-- `TurningProcessPlan._get_turning_score`. -/
def turning_score (a : Analysis) : ℚ :=
  match a.turning with
  | some t => t.score.getD 0
  | none => a.milling_score.getD 0

/-- `self.strict_turnable` as computed in `TurningProcessPlan.__init__`:
`bool(turning_data.get("strict_turnable", self.turning_score >= 75))`. -/
def strict_turnable (a : Analysis) : Bool :=
  match a.turning with
  | some t => t.strict_turnable.getD (decide (75 ≤ turning_score a))
  | none => decide (75 ≤ turning_score a)

/-- `strict_checks = turning_data.get("strict_checks", {}) or {}`;
`none` models the empty dict. -/
def strict_checks (a : Analysis) : Option StrictChecks :=
  a.turning.bind (fun t => t.strict_checks)

/-- `self.partial_turnable` as computed in `TurningProcessPlan.__init__`. -/
def partial_turnable (a : Analysis) : Bool :=
  match strict_checks a with
  | some c =>
      decide (40 ≤ turning_score a) && c.cylindrical_dominance &&
        (c.circular_edge_support || c.reasonable_aspect_ratio)
  | none => decide (45 ≤ turning_score a)

/-- `self.is_machinable = self.strict_turnable or self.partial_turnable`. -/
def is_machinable (a : Analysis) : Bool :=
  strict_turnable a || partial_turnable a

/-- Result of `TurningProcessPlan._format_dimensions`. -/
structure Dims where
  diameter : ℚ
  length : ℚ
  volume : ℚ
  x_size : ℚ
  y_size : ℚ
  z_size : ℚ
deriving DecidableEq

/-- `TurningProcessPlan._format_dimensions`. -/
def format_dimensions (a : Analysis) : Dims :=
  let x_size := max (a.dim_x.getD 20) 0.1
  let y_size := max (a.dim_y.getD 20) 0.1
  let z_size := max (a.dim_z.getD 50) 0.1
  { diameter := max x_size y_size, length := z_size,
    volume := max (a.dim_volume.getD 0) 0,
    x_size := x_size, y_size := y_size, z_size := z_size }

/-- One feature verdict of `_detect_features` (the `reasons` list is
presentational and omitted). -/
structure FeatureResult where
  detected : Bool
  confidence : String
deriving DecidableEq

/-- `_feature_result(score, reasons, label)`. -/
def feature_result (score : ℤ) : FeatureResult :=
  if 3 ≤ score then ⟨true, "high"⟩
  else if score = 2 then ⟨true, "medium"⟩
  else ⟨false, "low"⟩

/-- Result of `TurningProcessPlan._detect_features` (the `metrics` block is
output-only and omitted). -/
structure FeatureDetection where
  threading : FeatureResult
  grooving : FeatureResult
deriving DecidableEq

/-- `TurningProcessPlan._detect_features`. -/
def detect_features (a : Analysis) (dims : Dims) : FeatureDetection :=
  let faces : ℤ := max (a.geom_faces.getD 0) 1
  let edges : ℤ := max (a.geom_edges.getD 0) 0
  let edge_face_ratio : ℚ := (edges : ℚ) / (faces : ℚ)
  let cyl := a.surf_cylinder.getD 0
  let cone := a.surf_cone.getD 0
  let torus := a.surf_torus.getD 0
  let plane := a.surf_plane.getD 0
  let slenderness : ℚ := dims.length / max dims.diameter 0.1
  let threading_score : ℤ :=
    (if 0 < cone ∧ 2 ≤ cyl then 2 else 0) +
    (if 2.8 ≤ edge_face_ratio ∧ 3 ≤ cyl then 1 else 0) +
    (if 1.2 ≤ slenderness then 1 else 0)
  let grooving_score : ℤ :=
    (if 0 < torus then 2 else 0) +
    (if 4 ≤ cyl ∧ 4 ≤ plane ∧ 2.2 ≤ edge_face_ratio then 1 else 0) +
    (if 5 ≤ a.cylindrical_faces.getD 0 then 1 else 0)
  { threading := feature_result threading_score,
    grooving := feature_result grooving_score }

/-- `TurningProcessPlan._needs_finish_pass`. -/
def needs_finish_pass (cfg : PlanConfig) : Bool :=
  (match cfg.tolerance_mm with
   | some t => decide (t ≤ 0.05)
   | none => false) ||
  (match cfg.surface_roughness_ra with
   | some ra => decide (ra ≤ 1.6)
   | none => false)

/-- `TurningProcessPlan._calculate_spindle_speed`. -/
def calculate_spindle_speed (cfg : PlanConfig) (diameter_mm : ℚ)
    (operation_type : String) : ℤ :=
  let d := if diameter_mm ≤ 0 then 20 else diameter_mm
  let surface_speeds : List (String × ℚ) :=
    [("facing", 250), ("rough", 200), ("finish", 300), ("boring", 180),
     ("threading", 100), ("grooving", 150), ("parting", 120)]
  let sfm := ((surface_speeds.lookup operation_type).getD 200) *
    material_factor cfg.material_profile
  let diameter_inches := d / 25.4
  let diameter_inches := if diameter_inches ≤ 0 then 0.8 else diameter_inches
  let rpm := pyInt ((sfm * 12) / (3.14159 * diameter_inches))
  let machine_rpm_limit := (machine_limits cfg.machine_profile).max_rpm
  max 100 (min machine_rpm_limit rpm)

/-- `TurningProcessPlan._estimate_turning_time` (the dead
`material_removal_rate` local of the source is not modelled; the source
would raise `ZeroDivisionError` on `depth_mm = 0`, which no caller passes —
rational division there is total). -/
def estimate_turning_time (cfg : PlanConfig)
    (diameter_mm length_mm depth_mm feed_mm_rev : ℚ) : ℚ :=
  if feed_mm_rev = 0 ∨ length_mm = 0 then 0
  else
    let passes : ℤ := max (pyInt ((diameter_mm / 2) / depth_mm)) 1
    let spindle_speed := calculate_spindle_speed cfg diameter_mm "rough"
    let time_per_pass : ℚ :=
      if 0 < spindle_speed then
        length_mm / ((spindle_speed : ℚ) * feed_mm_rev / 1000)
      else 5
    let total := time_per_pass * (passes : ℚ) + ((max (passes - 1) 0 : ℤ) : ℚ) * 0.5
    let total := if 100 < total then 10 else total
    pyRound 1 total

/-- The closed set of `"type"` tags of operations. -/
inductive OpKind
  | facing
  | turning
  | finishing
  | boring
  | threading
  | grooving
  | parting
deriving DecidableEq

/-- One synthesized operation (the `description` field is presentational
and omitted). -/
structure Operation where
  operation_id : ℕ
  name : String
  opType : OpKind
  tool : String
  spindle_speed : ℤ
  feed_rate : ℚ
  depth_of_cut : ℚ
  coolant : String
  estimated_time : ℚ
  thread_spec : Option String
deriving DecidableEq

/-- Assign `operation_id`s positionally starting from `i`. The source's
`add_operation` sets `row["operation_id"] = len(operations) + 1` at append
time, which is exactly the final 1-based position since operations are only
ever appended. -/
def numberFrom : ℕ → List Operation → List Operation
  | _, [] => []
  | i, o :: rest => { o with operation_id := i } :: numberFrom (i + 1) rest

/-- `TurningProcessPlan.generate_operations`. -/
def generate_operations (cfg : PlanConfig) (a : Analysis) : List Operation :=
  if is_machinable a = false then []
  else
    let dims := format_dimensions a
    let diameter := dims.diameter
    let length := dims.length
    let features := detect_features a dims
    let raw : List Operation :=
      [{ operation_id := 0, name := "Face & Center", opType := OpKind.facing,
         tool := "Facing insert (CNMG)",
         spindle_speed := calculate_spindle_speed cfg diameter "facing",
         feed_rate := 0.15, depth_of_cut := 1, coolant := "flood",
         estimated_time := 2, thread_spec := none }] ++
      (if 20 < diameter then
        [{ operation_id := 0, name := "Rough Turning", opType := OpKind.turning,
           tool := "Turning insert (VNMG)",
           spindle_speed := calculate_spindle_speed cfg (diameter * 0.8) "rough",
           feed_rate := 0.20, depth_of_cut := 2, coolant := "flood",
           estimated_time := estimate_turning_time cfg diameter length 2 0.20,
           thread_spec := none }]
       else []) ++
      [{ operation_id := 0, name := "Finish Turning", opType := OpKind.turning,
         tool := "Finishing insert (VNMG, R0.4)",
         spindle_speed := calculate_spindle_speed cfg diameter "finish",
         feed_rate := 0.10, depth_of_cut := 0.5, coolant := "flood",
         estimated_time := estimate_turning_time cfg diameter length 0.5 0.10,
         thread_spec := none }] ++
      (if needs_finish_pass cfg then
        [{ operation_id := 0, name := "Fine Finish Pass", opType := OpKind.finishing,
           tool := "Wiper finishing insert (VNMG, R0.2)",
           spindle_speed := calculate_spindle_speed cfg diameter "finish",
           feed_rate := 0.05, depth_of_cut := 0.2, coolant := "flood",
           estimated_time := estimate_turning_time cfg diameter length 0.2 0.05,
           thread_spec := none }]
       else []) ++
      (if 2 < a.cylindrical_faces.getD 0 then
        [{ operation_id := 0, name := "Boring", opType := OpKind.boring,
           tool := "Boring bar with insert",
           spindle_speed := calculate_spindle_speed cfg (diameter * 0.5) "boring",
           feed_rate := 0.12, depth_of_cut := 1, coolant := "flood",
           estimated_time := 3, thread_spec := none }]
       else []) ++
      (if features.threading.detected then
        [{ operation_id := 0, name := "Threading", opType := OpKind.threading,
           tool := "Threading insert (60 degree diamond)",
           spindle_speed := Int.fdiv (calculate_spindle_speed cfg diameter "threading") 2,
           feed_rate := 0.5, depth_of_cut := 0.5, coolant := "light",
           estimated_time := 2.5, thread_spec := some "M10 x 1.5 (example)" }]
       else []) ++
      (if features.grooving.detected then
        [{ operation_id := 0, name := "Grooving", opType := OpKind.grooving,
           tool := "Grooving insert",
           spindle_speed := calculate_spindle_speed cfg (diameter * 0.7) "grooving",
           feed_rate := 0.15, depth_of_cut := 0.8, coolant := "flood",
           estimated_time := 1.5, thread_spec := none }]
       else []) ++
      [{ operation_id := 0, name := "Parting Off", opType := OpKind.parting,
         tool := "Parting blade",
         spindle_speed := calculate_spindle_speed cfg (diameter * 0.9) "parting",
         feed_rate := 0.08, depth_of_cut := diameter * 0.5, coolant := "light",
         estimated_time := 1, thread_spec := none }]
    numberFrom 1 raw

/-- `self.feature_detection` after `generate_operations` ran: set to the
detector output inside the machinable branch, left `{}` (here `none`) by
the early return otherwise. -/
def plan_feature_detection (a : Analysis) : Option FeatureDetection :=
  if is_machinable a then some (detect_features a (format_dimensions a)) else none

/-- One required tool (`type`/`description` of the source are `ttype`/`purpose`). -/
structure Tool where
  tool_id : ℕ
  name : String
  ttype : String
  material : String
  coating : String
  purpose : String
deriving DecidableEq

/-- Assign `tool_id`s positionally starting from `i`
(`for idx, tool in enumerate(filtered, start=1): tool["tool_id"] = idx`). -/
def numberToolsFrom : ℕ → List Tool → List Tool
  | _, [] => []
  | i, t :: rest => { t with tool_id := i } :: numberToolsFrom (i + 1) rest

/-- `TurningProcessPlan.generate_tool_list`. -/
def generate_tool_list (ops : List Operation) : List Tool :=
  let tools : List Tool :=
    [⟨1, "Facing Insert", "CNMG 432 M0804", "Carbide", "TiAlN", "For facing and end turning"⟩,
     ⟨2, "Turning Insert", "VNMG 431", "Carbide", "TiAlN", "For rough and finish turning"⟩,
     ⟨3, "Boring Insert", "VNMG 331", "Carbide", "TiAlN", "For boring internal diameters"⟩,
     ⟨4, "Threading Insert", "TT09T304", "Carbide", "TiN", "For external threading"⟩,
     ⟨5, "Grooving Insert", "MGMN 300-M", "Carbide", "TiAlN", "For grooving operations"⟩,
     ⟨6, "Parting Blade", "MGHR-3-M", "Carbide", "TiN", "For parting off finished parts"⟩]
  let has_threading := ops.any (fun op => decide (op.opType = OpKind.threading))
  let has_grooving := ops.any (fun op => decide (op.opType = OpKind.grooving))
  let has_finishing := ops.any (fun op => decide (op.opType = OpKind.finishing))
  let filtered := tools.filter (fun t =>
    !((decide (t.name = "Threading Insert") && !has_threading) ||
      (decide (t.name = "Grooving Insert") && !has_grooving)))
  let filtered :=
    if has_finishing then
      filtered ++ [⟨filtered.length + 1, "Fine Finishing Insert", "VNMG 331 Wiper",
        "Carbide", "TiAlN", "For tight tolerance and Ra finishing pass"⟩]
    else filtered
  numberToolsFrom 1 filtered

/-- Severity levels of validation messages. -/
inductive CheckLevel
  | pass
  | warn
  | fail
deriving DecidableEq

/-- `severity = {"pass": 0, "warn": 1, "fail": 2}`. -/
def severity : CheckLevel → ℕ
  | CheckLevel.pass => 0
  | CheckLevel.warn => 1
  | CheckLevel.fail => 2

/-- One validation message (the formatted `detail` string is omitted). -/
structure VMessage where
  level : CheckLevel
  title : String
deriving DecidableEq

/-- One step of Python's `max(messages, key=severity-of-level)`: keep the
first message seen whose severity is maximal. -/
def worst_step (acc : CheckLevel) (m : VMessage) : CheckLevel :=
  if severity acc < severity m.level then m.level else acc

/-- `max(messages, key=...)["level"] if messages else "pass"`: starting the
fold at `pass` (severity 0) yields the same level as Python's first-maximum
and yields `"pass"` on the empty list. -/
def worst_level (messages : List VMessage) : CheckLevel :=
  messages.foldl worst_step CheckLevel.pass

/-- The validation report (`status` is the stored `worst`; the echoed
`feature_detection`/`inputs` blocks of the result dict are omitted). -/
structure ValidationResult where
  status : CheckLevel
  messages : List VMessage
deriving DecidableEq

/-- `TurningProcessPlan.run_validation_checks`, as a function of the plan
state it reads: the config, the analysis, `self.feature_detection` and
`self.operations`. -/
def run_validation_checks (cfg : PlanConfig) (a : Analysis)
    (feature_detection : Option FeatureDetection)
    (operations : List Operation) : ValidationResult :=
  let dims := format_dimensions a
  let limits := machine_limits cfg.machine_profile
  let threading_detected :=
    (feature_detection.map (fun fd => fd.threading.detected)).getD false
  let grooving_detected :=
    (feature_detection.map (fun fd => fd.grooving.detected)).getD false
  let has_threading_op := operations.any (fun op => decide (op.opType = OpKind.threading))
  let has_grooving_op := operations.any (fun op => decide (op.opType = OpKind.grooving))
  let has_fine_finish := operations.any (fun op => decide (op.opType = OpKind.finishing))
  let finish_needed := needs_finish_pass cfg
  let near_limit := operations.filter
    (fun op => decide (pyInt ((limits.max_rpm : ℚ) * 0.95) ≤ op.spindle_speed))
  let roughing_ops := operations.filter (fun op => decide (op.name = "Rough Turning"))
  let estimated_kw : ℚ :=
    match roughing_ops with
    | [] => 0
    | op :: _ =>
        let d := max dims.diameter 1
        3.14159 * d * (op.spindle_speed : ℚ) * op.feed_rate * op.depth_of_cut
          / 1000 * specific_power cfg.material_profile
  let usable_power_kw := limits.max_power_kw * 0.85
  let messages : List VMessage :=
    [if has_threading_op = threading_detected then ⟨CheckLevel.pass, "Threading Rule"⟩
     else ⟨CheckLevel.fail, "Threading Rule"⟩,
     if has_grooving_op = grooving_detected then ⟨CheckLevel.pass, "Grooving Rule"⟩
     else ⟨CheckLevel.fail, "Grooving Rule"⟩,
     if finish_needed = has_fine_finish then ⟨CheckLevel.pass, "Tolerance/Ra Rule"⟩
     else ⟨CheckLevel.fail, "Tolerance/Ra Rule"⟩,
     if limits.max_turning_diameter_mm < dims.diameter then
       ⟨CheckLevel.fail, "Machine Diameter Limit"⟩
     else ⟨CheckLevel.pass, "Machine Diameter Limit"⟩,
     if limits.max_turning_length_mm < dims.length then
       ⟨CheckLevel.fail, "Machine Length Limit"⟩
     else ⟨CheckLevel.pass, "Machine Length Limit"⟩,
     if near_limit ≠ [] then ⟨CheckLevel.warn, "Spindle Speed Margin"⟩
     else ⟨CheckLevel.pass, "Spindle Speed Margin"⟩,
     if usable_power_kw < estimated_kw then ⟨CheckLevel.warn, "Spindle Power Check"⟩
     else ⟨CheckLevel.pass, "Spindle Power Check"⟩]
  { status := worst_level messages, messages := messages }

/-- `partial_turnable` as §4.2 of the spec words it: score ≥ 40 AND
`cylindrical_dominance` AND (`circular_edge_support` OR
`reasonable_aspect_ratio`); fall back to score ≥ 45 when the named checks
are unavailable. Stated on the raw score and checks, for comparison with
the source-derived `partial_turnable`. -/
def partial_turnable_per_spec (score : ℚ) (checks : Option StrictChecks) : Bool :=
  match checks with
  | some c =>
      decide (40 ≤ score) && c.cylindrical_dominance &&
        (c.circular_edge_support || c.reasonable_aspect_ratio)
  | none => decide (45 ≤ score)

end CAPP

namespace StepAnalyzer

open Real

/-- A 3-vector of (exact-real-modelled) float components. -/
structure Vec3 where
  x : ℝ
  y : ℝ
  z : ℝ

/-- `_dot`. -/
def vdot (a b : Vec3) : ℝ := a.x * b.x + a.y * b.y + a.z * b.z

/-- The magnitude `math.sqrt(vec[0]**2 + vec[1]**2 + vec[2]**2)`. -/
noncomputable def vmag (v : Vec3) : ℝ := Real.sqrt (v.x ^ 2 + v.y ^ 2 + v.z ^ 2)

/-- `_normalize_vector`: `None` when the magnitude is at most `1e-9`. -/
noncomputable def normalize_vector (v : Vec3) : Option Vec3 :=
  if vmag v ≤ 1e-9 then none
  else some ⟨v.x / vmag v, v.y / vmag v, v.z / vmag v⟩

/-- The accumulation loop of `_compute_best_fit_axis`: starting from the
seed, add each later axis with its sign flipped when its dot product with
the seed is negative. -/
noncomputable def signed_accum (seed : Vec3) (rest : List Vec3) : Vec3 :=
  rest.foldl
    (fun acc axis =>
      if 0 ≤ vdot seed axis then
        ⟨acc.x + axis.x, acc.y + axis.y, acc.z + axis.z⟩
      else
        ⟨acc.x - axis.x, acc.y - axis.y, acc.z - axis.z⟩)
    seed

/-- `min(1.0, max(0.0, abs(_dot(best, axis))))`. -/
def cos_angle (best axis : Vec3) : ℝ := min 1 (max 0 |vdot best axis|)

/-- Python `round` half to even on a real value. -/
noncomputable def pyRoundHalfEvenR (x : ℝ) : ℤ :=
  if Int.fract x < 1 / 2 then ⌊x⌋
  else if 1 / 2 < Int.fract x then ⌊x⌋ + 1
  else if ⌊x⌋ % 2 = 0 then ⌊x⌋ else ⌊x⌋ + 1

/-- Python `round(x, nd)` on a real value. -/
noncomputable def pyRoundR (nd : ℕ) (x : ℝ) : ℝ :=
  (pyRoundHalfEvenR (x * 10 ^ nd) : ℝ) / 10 ^ nd

/-- The dict returned by `_compute_best_fit_axis`. `best` is the internal
(unrounded) best-fit axis the aligned counts and misalignments are computed
against; `axis_x`/`axis_y`/`axis_z` are its components as reported, rounded
to 4 decimals. -/
structure AxisFit where
  available : Bool
  best : Vec3
  axis_x : ℝ
  axis_y : ℝ
  axis_z : ℝ
  aligned_ratio_8deg : ℝ
  aligned_ratio_15deg : ℝ
  mean_misalignment_deg : ℝ

/-- `_compute_best_fit_axis`. -/
noncomputable def compute_best_fit_axis : List Vec3 → AxisFit
  | [] =>
    { available := false, best := ⟨0, 0, 1⟩,
      axis_x := 0, axis_y := 0, axis_z := 1,
      aligned_ratio_8deg := 0, aligned_ratio_15deg := 0,
      mean_misalignment_deg := 90 }
  | seed :: rest =>
    let rot_axes := seed :: rest
    let accum := signed_accum seed rest
    let best := (normalize_vector accum).getD seed
    let cos_8 := Real.cos (Real.pi * 8 / 180)
    let cos_15 := Real.cos (Real.pi * 15 / 180)
    let aligned_8 := rot_axes.countP (fun axis => decide (cos_8 ≤ cos_angle best axis))
    let aligned_15 := rot_axes.countP (fun axis => decide (cos_15 ≤ cos_angle best axis))
    let misalignment_sum :=
      (rot_axes.map (fun axis => Real.arccos (cos_angle best axis) * 180 / Real.pi)).sum
    let count : ℝ := rot_axes.length
    { available := true, best := best,
      axis_x := pyRoundR 4 best.x, axis_y := pyRoundR 4 best.y,
      axis_z := pyRoundR 4 best.z,
      aligned_ratio_8deg := (aligned_8 : ℝ) / count,
      aligned_ratio_15deg := (aligned_15 : ℝ) / count,
      mean_misalignment_deg := pyRoundR 2 (misalignment_sum / count) }

end StepAnalyzer

/-! ## Concrete sample inputs used by witnesses and counterexamples -/

namespace CAPP

/-- Default planner configuration: the default material and machine
profiles, no tolerance or roughness targets. -/
def sampleCfg : PlanConfig :=
  { material_profile := "EN8 / EN8D",
    machine_profile := "ACE Designers CNC Turning Center",
    tolerance_mm := none, surface_roughness_ra := none }

/-- A minimal machinable analysis: the analyzer reported
`strict_turnable = true` with score 80 and nothing else, so every
dimension falls back to its default (diameter 20, length 50). -/
def sampleA : Analysis :=
  { turning := some { score := some 80, strict_turnable := some true, strict_checks := none } }

/-- The facing operation the planner synthesizes first for `sampleA`. -/
def sampleFacingOp : Operation :=
  { operation_id := 1, name := "Face & Center", opType := OpKind.facing,
    tool := "Facing insert (CNMG)",
    spindle_speed := calculate_spindle_speed sampleCfg
      (format_dimensions sampleA).diameter "facing",
    feed_rate := 0.15, depth_of_cut := 1, coolant := "flood",
    estimated_time := 2, thread_spec := none }

/-- A machinable analysis of a large (diameter 100) part whose geometry
triggers threading detection (one cone, two cylinders). -/
def cexA : Analysis :=
  { turning := some { score := some 80, strict_turnable := some true, strict_checks := none },
    dim_x := some 100, dim_y := some 10, dim_z := some 50,
    surf_cylinder := some 2, surf_cone := some 1 }

end CAPP

/-! ## Helper lemmas -/

namespace CAPP

lemma machine_limits_rpm_lower (s : String) : 100 ≤ (machine_limits s).max_rpm := by
  simp only [machine_limits, MACHINE_PROFILES, DEFAULT_MACHINE_LIMITS, List.lookup]
  repeat' split
  all_goals norm_num [Option.getD]

lemma calculate_spindle_speed_lower (cfg : PlanConfig) (d : ℚ) (t : String) :
    100 ≤ calculate_spindle_speed cfg d t := by
  simp only [calculate_spindle_speed]
  exact le_max_left _ _

lemma calculate_spindle_speed_upper (cfg : PlanConfig) (d : ℚ) (t : String) :
    calculate_spindle_speed cfg d t ≤ (machine_limits cfg.machine_profile).max_rpm := by
  simp only [calculate_spindle_speed]
  exact max_le (machine_limits_rpm_lower _) (min_le_left _ _)

lemma numberFrom_map_of_id_irrelevant {α : Type} (f : Operation → α)
    (hf : ∀ (o : Operation) (i : ℕ), f { o with operation_id := i } = f o) :
    ∀ (i : ℕ) (l : List Operation), (numberFrom i l).map f = l.map f := by
  intro i l
  induction l generalizing i with
  | nil => rfl
  | cons o rest ih => simp [numberFrom, hf, ih]

lemma numberFrom_length :
    ∀ (i : ℕ) (l : List Operation), (numberFrom i l).length = l.length := by
  intro i l
  induction l generalizing i with
  | nil => rfl
  | cons o rest ih => simp [numberFrom, ih]

lemma numberFrom_map_operation_id :
    ∀ (i : ℕ) (l : List Operation),
      (numberFrom i l).map (fun o => o.operation_id) = List.range' i l.length := by
  intro i l
  induction l generalizing i with
  | nil => rfl
  | cons o rest ih => simp [numberFrom, List.range', ih]

lemma severity_le_foldl_worst :
    ∀ (l : List VMessage) (init : CheckLevel),
      severity init ≤ severity (l.foldl worst_step init) ∧
        ∀ m ∈ l, severity m.level ≤ severity (l.foldl worst_step init) := by
  intro l
  induction l with
  | nil => exact fun init => ⟨le_refl _, by simp⟩
  | cons m rest ih =>
    intro init
    have h1 := ih (worst_step init m)
    have hstep : severity init ≤ severity (worst_step init m) := by
      unfold worst_step; split <;> omega
    have hstepm : severity m.level ≤ severity (worst_step init m) := by
      unfold worst_step; split <;> omega
    refine ⟨le_trans hstep h1.1, ?_⟩
    intro m' hm'
    rcases List.mem_cons.mp hm' with rfl | hm'
    · exact le_trans hstepm h1.1
    · exact h1.2 m' hm'

lemma foldl_worst_mem :
    ∀ (l : List VMessage) (init : CheckLevel),
      l.foldl worst_step init = init ∨
        (l.foldl worst_step init) ∈ l.map (fun m => m.level) := by
  intro l
  induction l with
  | nil => exact fun _ => Or.inl rfl
  | cons m rest ih =>
    intro init
    rcases ih (worst_step init m) with h | h
    · rw [List.foldl_cons, h]
      unfold worst_step
      split
      · exact Or.inr (by simp)
      · exact Or.inl rfl
    · exact Or.inr (by simp only [List.foldl_cons]; simp [h])

lemma severity_zero_eq_pass (lv : CheckLevel) (h : severity lv ≤ 0) :
    lv = CheckLevel.pass := by
  cases lv <;> simp [severity] at h ⊢

lemma mem_ite_nil {α : Type} (x : α) (c : Prop) [Decidable c] (l : List α) :
    (x ∈ if c then l else []) ↔ c ∧ x ∈ l := by
  split <;> simp [*]

lemma any_numberFrom (p : Operation → Bool)
    (hp : ∀ (o : Operation) (i : ℕ), p { o with operation_id := i } = p o) :
    ∀ (i : ℕ) (l : List Operation), (numberFrom i l).any p = l.any p := by
  intro i l
  induction l generalizing i with
  | nil => rfl
  | cons o rest ih => simp [numberFrom, hp, ih]

lemma any_threading_of_machinable (cfg : PlanConfig) (a : Analysis)
    (h : is_machinable a = true) :
    (generate_operations cfg a).any (fun op => decide (op.opType = OpKind.threading)) =
      (detect_features a (format_dimensions a)).threading.detected := by
  unfold generate_operations
  rw [if_neg (by simp [h])]
  simp only []
  rw [any_numberFrom (fun op => decide (op.opType = OpKind.threading)) (fun o i => rfl)]
  by_cases hdet : (detect_features a (format_dimensions a)).threading.detected = true <;>
    simp_all [List.any_append,
      apply_ite (List.any · (fun op : Operation => decide (op.opType = OpKind.threading)))]

lemma any_grooving_of_machinable (cfg : PlanConfig) (a : Analysis)
    (h : is_machinable a = true) :
    (generate_operations cfg a).any (fun op => decide (op.opType = OpKind.grooving)) =
      (detect_features a (format_dimensions a)).grooving.detected := by
  unfold generate_operations
  rw [if_neg (by simp [h])]
  simp only []
  rw [any_numberFrom (fun op => decide (op.opType = OpKind.grooving)) (fun o i => rfl)]
  by_cases hdet : (detect_features a (format_dimensions a)).grooving.detected = true <;>
    simp_all [List.any_append,
      apply_ite (List.any · (fun op : Operation => decide (op.opType = OpKind.grooving)))]

lemma worst_level_attained (l : List VMessage) (hne : l ≠ []) :
    ∃ m ∈ l, m.level = worst_level l := by
  rcases foldl_worst_mem l CheckLevel.pass with h | h
  · rcases l with _ | ⟨m, rest⟩
    · exact absurd rfl hne
    · refine ⟨m, List.mem_cons_self _ _, ?_⟩
      have h2 := (severity_le_foldl_worst (m :: rest) CheckLevel.pass).2 m
        (List.mem_cons_self _ _)
      rw [worst_level, h]
      rw [h] at h2
      exact severity_zero_eq_pass _ (by simpa [severity] using h2)
  · rw [List.mem_map] at h
    obtain ⟨m, hm, hlv⟩ := h
    exact ⟨m, hm, hlv⟩

end CAPP

namespace StepAnalyzer

lemma cos15_le_cos8 :
    Real.cos (Real.pi * 15 / 180) ≤ Real.cos (Real.pi * 8 / 180) := by
  have hpi := Real.pi_pos
  exact Real.cos_le_cos_of_nonneg_of_le_pi (by positivity) (by nlinarith) (by nlinarith)

lemma vdot_self_eq_one_of_unit (v : Vec3) (h : vmag v = 1) : vdot v v = 1 := by
  have h1 : v.x ^ 2 + v.y ^ 2 + v.z ^ 2 = 1 := Real.sqrt_eq_one.mp h
  unfold vdot
  nlinarith [h1]

lemma one_le_vdot_signed_accum (seed : Vec3) (rest : List Vec3)
    (h1 : vdot seed seed = 1) : 1 ≤ vdot seed (signed_accum seed rest) := by
  unfold signed_accum
  have key : ∀ (l : List Vec3) (acc : Vec3), 1 ≤ vdot seed acc →
      1 ≤ vdot seed (l.foldl
        (fun acc axis =>
          if 0 ≤ vdot seed axis then
            ⟨acc.x + axis.x, acc.y + axis.y, acc.z + axis.z⟩
          else
            ⟨acc.x - axis.x, acc.y - axis.y, acc.z - axis.z⟩) acc) := by
    intro l
    induction l with
    | nil => intro acc hacc; exact hacc
    | cons axis t ih =>
      intro acc hacc
      rw [List.foldl_cons]
      apply ih
      split
      · next hd => simp only [vdot] at hacc hd ⊢; nlinarith
      · next hd =>
        push_neg at hd
        simp only [vdot] at hacc hd ⊢
        nlinarith
  exact key rest seed (by rw [h1])

lemma vdot_le_vmag_mul_vmag (a b : Vec3) : vdot a b ≤ vmag a * vmag b := by
  have key : (vdot a b) ^ 2 ≤
      (a.x ^ 2 + a.y ^ 2 + a.z ^ 2) * (b.x ^ 2 + b.y ^ 2 + b.z ^ 2) := by
    unfold vdot
    nlinarith [sq_nonneg (a.x * b.y - a.y * b.x), sq_nonneg (a.x * b.z - a.z * b.x),
      sq_nonneg (a.y * b.z - a.z * b.y)]
  calc vdot a b ≤ |vdot a b| := le_abs_self _
    _ = Real.sqrt ((vdot a b) ^ 2) := (Real.sqrt_sq_eq_abs _).symm
    _ ≤ Real.sqrt ((a.x ^ 2 + a.y ^ 2 + a.z ^ 2) * (b.x ^ 2 + b.y ^ 2 + b.z ^ 2)) :=
      Real.sqrt_le_sqrt key
    _ = vmag a * vmag b := by
      unfold vmag
      rw [Real.sqrt_mul (by positivity)]

end StepAnalyzer

/-! ## Claim theorems -/

/-- C3: `partial_turnable` is true exactly when score ≥ 40 and the
`cylindrical_dominance` check holds and (`circular_edge_support` or
`reasonable_aspect_ratio` holds); when the named strict checks are
unavailable it falls back to score ≥ 45; and `is_machinable` equals
`strict_turnable OR partial_turnable`. Stated as agreement between the
source-derived flag and the flag recomputed from the spec's wording. -/
theorem partial_turnable_matches_spec (a : CAPP.Analysis) :
    CAPP.partial_turnable a =
      CAPP.partial_turnable_per_spec (CAPP.turning_score a) (CAPP.strict_checks a) ∧
    CAPP.is_machinable a = (CAPP.strict_turnable a || CAPP.partial_turnable a) :=
  ⟨rfl, rfl⟩

/-- C1 (amended): for every input, every synthesized operation's spindle
speed is an integer between 50 and the selected machine profile's max RPM;
every operation other than threading has speed at least 100 (the shared
helper clamps to [100, machine_rpm_limit]), while the threading operation
stores the clamped helper value floor-divided by 2, so its floor is 50. -/
theorem spindle_speed_bounds_per_operation (cfg : CAPP.PlanConfig) (a : CAPP.Analysis)
    (op : CAPP.Operation) (hop : op ∈ CAPP.generate_operations cfg a) :
    50 ≤ op.spindle_speed ∧
    op.spindle_speed ≤ (CAPP.machine_limits cfg.machine_profile).max_rpm ∧
    (op.opType ≠ CAPP.OpKind.threading → 100 ≤ op.spindle_speed) := by
  have hmem : (op.opType, op.spindle_speed) ∈
      (CAPP.generate_operations cfg a).map (fun o => (o.opType, o.spindle_speed)) :=
    List.mem_map_of_mem _ hop
  unfold CAPP.generate_operations at hmem
  split at hmem
  · simp at hmem
  · rw [CAPP.numberFrom_map_of_id_irrelevant (fun o => (o.opType, o.spindle_speed))
      (fun o i => rfl)] at hmem
    simp only [List.map_append, List.mem_append, List.map_cons, List.map_nil,
      apply_ite (List.map (fun o : CAPP.Operation => (o.opType, o.spindle_speed))),
      CAPP.mem_ite_nil, List.mem_cons, List.mem_singleton, List.not_mem_nil,
      or_false] at hmem
    have hlow := fun d t => CAPP.calculate_spindle_speed_lower cfg d t
    have hup := fun d t => CAPP.calculate_spindle_speed_upper cfg d t
    rcases hmem with ((((((h | ⟨_, h⟩) | h) | ⟨_, h⟩) | ⟨_, h⟩) | ⟨_, h⟩) | ⟨_, h⟩) | h <;>
      (rw [Prod.mk.injEq] at h; obtain ⟨hk, hs⟩ := h; rw [hs]) <;>
      first
        | exact ⟨le_trans (by norm_num) (hlow _ _), hup _ _, fun _ => hlow _ _⟩
        | (have h1 := hlow (CAPP.format_dimensions a).diameter "threading"
           have h2 := hup (CAPP.format_dimensions a).diameter "threading"
           rw [Int.fdiv_eq_ediv _ (by norm_num)]
           exact ⟨by omega, by omega, fun hne => absurd hk hne⟩)

/-- C1 witness: the facing operation synthesized for the minimal machinable
sample input satisfies the amended spindle-speed bounds. -/
theorem spindle_speed_bounds_witness :
    CAPP.sampleFacingOp ∈ CAPP.generate_operations CAPP.sampleCfg CAPP.sampleA ∧
      (50 ≤ CAPP.sampleFacingOp.spindle_speed ∧
       CAPP.sampleFacingOp.spindle_speed ≤
         (CAPP.machine_limits CAPP.sampleCfg.machine_profile).max_rpm ∧
       (CAPP.sampleFacingOp.opType ≠ CAPP.OpKind.threading →
         100 ≤ CAPP.sampleFacingOp.spindle_speed)) :=
  have hmem : CAPP.sampleFacingOp ∈ CAPP.generate_operations CAPP.sampleCfg CAPP.sampleA :=
    List.mem_cons_self _ _
  ⟨hmem, spindle_speed_bounds_per_operation CAPP.sampleCfg CAPP.sampleA CAPP.sampleFacingOp hmem⟩

/-- C1 counterexample: on a machinable diameter-100 part with threading
detected, the synthesized threading operation's spindle speed is 50 — the
original claim's lower bound of 100 fails. -/
theorem threading_speed_below_100_cex :
    ∃ op ∈ CAPP.generate_operations CAPP.sampleCfg CAPP.cexA, op.spindle_speed < 100 := by
  have hdet : (CAPP.detect_features CAPP.cexA
      (CAPP.format_dimensions CAPP.cexA)).threading.detected = true := by
    simp [CAPP.detect_features, CAPP.feature_result, CAPP.format_dimensions, CAPP.cexA]
    norm_num
  have hcalc : CAPP.calculate_spindle_speed CAPP.sampleCfg
      (CAPP.format_dimensions CAPP.cexA).diameter "threading" = 100 := by
    simp [CAPP.calculate_spindle_speed, CAPP.material_factor, CAPP.MATERIAL_SPEED_FACTORS,
      CAPP.machine_limits, CAPP.MACHINE_PROFILES, CAPP.DEFAULT_MACHINE_LIMITS, CAPP.pyInt,
      CAPP.format_dimensions, CAPP.cexA, CAPP.sampleCfg, List.lookup]
    norm_num
  have h50 : (50 : ℤ) ∈
      (CAPP.generate_operations CAPP.sampleCfg CAPP.cexA).map (fun o => o.spindle_speed) := by
    unfold CAPP.generate_operations
    split
    · next h => exact absurd h (by decide)
    · rw [CAPP.numberFrom_map_of_id_irrelevant (fun o => o.spindle_speed) (fun o i => rfl)]
      simp only [List.map_append, List.map_cons, List.map_nil,
        apply_ite (List.map (fun o : CAPP.Operation => o.spindle_speed)),
        List.mem_append, CAPP.mem_ite_nil, List.mem_cons, List.not_mem_nil, or_false]
      refine Or.inl (Or.inl (Or.inr ⟨hdet, ?_⟩))
      rw [hcalc]
      decide
  obtain ⟨op, hop, hs⟩ := List.mem_map.mp h50
  exact ⟨op, hop, by rw [hs]; decide⟩

/-- C2 (amended): the validation engine runs seven (not six) independent
checks, each producing exactly one message, and the report's worst level is
the maximum severity across all messages under pass < warn < fail; the
engine is a total function of its inputs (no input raises). -/
theorem validation_seven_checks_worst_level (cfg : CAPP.PlanConfig) (a : CAPP.Analysis)
    (fd : Option CAPP.FeatureDetection) (ops : List CAPP.Operation) :
    (CAPP.run_validation_checks cfg a fd ops).messages.length = 7 ∧
    (∀ m ∈ (CAPP.run_validation_checks cfg a fd ops).messages,
      CAPP.severity m.level ≤ CAPP.severity (CAPP.run_validation_checks cfg a fd ops).status) ∧
    (∃ m ∈ (CAPP.run_validation_checks cfg a fd ops).messages,
      m.level = (CAPP.run_validation_checks cfg a fd ops).status) := by
  refine ⟨rfl, ?_, ?_⟩
  · exact (CAPP.severity_le_foldl_worst _ _).2
  · refine CAPP.worst_level_attained _ ?_
    intro hc
    have h7 : (CAPP.run_validation_checks cfg a fd ops).messages.length = 7 := rfl
    rw [hc] at h7
    simp at h7

/-- C2 counterexample: at a concrete input the validation report has seven
messages, not six — every run emits one message per check and there are
seven checks in the source. -/
theorem validation_six_messages_cex :
    (CAPP.run_validation_checks CAPP.sampleCfg CAPP.sampleA none []).messages.length ≠ 6 := by
  have h : (CAPP.run_validation_checks CAPP.sampleCfg CAPP.sampleA none []).messages.length = 7 :=
    rfl
  omega

/-- C4: for every machinable input, the synthesized operation ids are
exactly 1..N in creation order, the first operation is facing and the
last operation is parting. -/
theorem operation_sequence_contiguous (cfg : CAPP.PlanConfig) (a : CAPP.Analysis)
    (h : CAPP.is_machinable a = true) :
    ((CAPP.generate_operations cfg a).map (fun o => o.operation_id) =
      List.range' 1 (CAPP.generate_operations cfg a).length) ∧
    ((CAPP.generate_operations cfg a).head?.map (fun o => o.opType) =
      some CAPP.OpKind.facing) ∧
    (((CAPP.generate_operations cfg a).map (fun o => o.opType)).getLast? =
      some CAPP.OpKind.parting) := by
  unfold CAPP.generate_operations
  rw [if_neg (by simp [h])]
  refine ⟨?_, ?_, ?_⟩
  · rw [CAPP.numberFrom_map_operation_id, CAPP.numberFrom_length]
  · simp [List.singleton_append, CAPP.numberFrom]
  · rw [CAPP.numberFrom_map_of_id_irrelevant (fun o => o.opType) (fun o i => rfl)]
    simp only [List.map_append, List.map_cons, List.map_nil,
      apply_ite (List.map (fun o : CAPP.Operation => o.opType)),
      List.getLast?_append, List.getLast?_singleton, Option.or]

/-- C4 witness: the minimal machinable sample input is machinable and its
synthesized sequence satisfies the id/facing/parting properties. -/
theorem operation_sequence_contiguous_witness :
    CAPP.is_machinable CAPP.sampleA = true ∧
    (((CAPP.generate_operations CAPP.sampleCfg CAPP.sampleA).map (fun o => o.operation_id) =
      List.range' 1 (CAPP.generate_operations CAPP.sampleCfg CAPP.sampleA).length) ∧
    ((CAPP.generate_operations CAPP.sampleCfg CAPP.sampleA).head?.map (fun o => o.opType) =
      some CAPP.OpKind.facing) ∧
    (((CAPP.generate_operations CAPP.sampleCfg CAPP.sampleA).map (fun o => o.opType)).getLast? =
      some CAPP.OpKind.parting)) :=
  ⟨rfl, operation_sequence_contiguous CAPP.sampleCfg CAPP.sampleA rfl⟩

/-- C5: for every operation list, the generated tool list contains a
Threading Insert iff a threading operation is present, a Grooving Insert
iff a grooving operation is present, a Fine Finishing Insert iff the
fine-finish pass is present, and the tool ids are renumbered 1..N. -/
theorem tool_list_round_trip (ops : List CAPP.Operation) :
    ((CAPP.generate_tool_list ops).any (fun t => decide (t.name = "Threading Insert")) =
      ops.any (fun op => decide (op.opType = CAPP.OpKind.threading))) ∧
    ((CAPP.generate_tool_list ops).any (fun t => decide (t.name = "Grooving Insert")) =
      ops.any (fun op => decide (op.opType = CAPP.OpKind.grooving))) ∧
    ((CAPP.generate_tool_list ops).any (fun t => decide (t.name = "Fine Finishing Insert")) =
      ops.any (fun op => decide (op.opType = CAPP.OpKind.finishing))) ∧
    ((CAPP.generate_tool_list ops).map (fun t => t.tool_id) =
      List.range' 1 (CAPP.generate_tool_list ops).length) := by
  cases h1 : ops.any (fun op => decide (op.opType = CAPP.OpKind.threading)) <;>
  cases h2 : ops.any (fun op => decide (op.opType = CAPP.OpKind.grooving)) <;>
  cases h3 : ops.any (fun op => decide (op.opType = CAPP.OpKind.finishing)) <;>
    simp [CAPP.generate_tool_list, h1, h2, h3, CAPP.numberToolsFrom, List.filter,
      List.range']

/-- C6: for every machinable input, immediately after a fresh synthesis run
on the same digest the validation engine's Threading-rule and Grooving-rule
messages are both pass. -/
theorem fresh_synthesis_validation_rules_pass (cfg : CAPP.PlanConfig) (a : CAPP.Analysis)
    (h : CAPP.is_machinable a = true) :
    ((CAPP.run_validation_checks cfg a (CAPP.plan_feature_detection a)
        (CAPP.generate_operations cfg a)).messages.get? 0 =
      some ⟨CAPP.CheckLevel.pass, "Threading Rule"⟩) ∧
    ((CAPP.run_validation_checks cfg a (CAPP.plan_feature_detection a)
        (CAPP.generate_operations cfg a)).messages.get? 1 =
      some ⟨CAPP.CheckLevel.pass, "Grooving Rule"⟩) := by
  have ht := CAPP.any_threading_of_machinable cfg a h
  have hg := CAPP.any_grooving_of_machinable cfg a h
  constructor <;>
    simp [CAPP.run_validation_checks, CAPP.plan_feature_detection, h, ht, hg]

/-- C6 witness: the minimal machinable sample input is machinable and a
fresh synthesis run on it yields pass for both feature rules. -/
theorem fresh_synthesis_validation_rules_pass_witness :
    CAPP.is_machinable CAPP.sampleA = true ∧
    (((CAPP.run_validation_checks CAPP.sampleCfg CAPP.sampleA
        (CAPP.plan_feature_detection CAPP.sampleA)
        (CAPP.generate_operations CAPP.sampleCfg CAPP.sampleA)).messages.get? 0 =
      some ⟨CAPP.CheckLevel.pass, "Threading Rule"⟩) ∧
    ((CAPP.run_validation_checks CAPP.sampleCfg CAPP.sampleA
        (CAPP.plan_feature_detection CAPP.sampleA)
        (CAPP.generate_operations CAPP.sampleCfg CAPP.sampleA)).messages.get? 1 =
      some ⟨CAPP.CheckLevel.pass, "Grooving Rule"⟩)) :=
  ⟨rfl, fresh_synthesis_validation_rules_pass CAPP.sampleCfg CAPP.sampleA rfl⟩

/-- C9: for every machinable input, the rough-turning operation is present
iff the part diameter is strictly greater than 20 mm. -/
theorem rough_turning_iff_diameter (cfg : CAPP.PlanConfig) (a : CAPP.Analysis)
    (h : CAPP.is_machinable a = true) :
    (CAPP.generate_operations cfg a).any (fun o => decide (o.name = "Rough Turning")) =
      decide (20 < (CAPP.format_dimensions a).diameter) := by
  unfold CAPP.generate_operations
  rw [if_neg (by simp [h])]
  simp only []
  rw [CAPP.any_numberFrom (fun o => decide (o.name = "Rough Turning")) (fun o i => rfl)]
  by_cases hc : 20 < (CAPP.format_dimensions a).diameter <;>
    simp [hc, List.any_append,
      apply_ite (List.any · (fun o : CAPP.Operation => decide (o.name = "Rough Turning")))]

/-- C9 witness: the minimal machinable sample input has diameter exactly
20 mm (the dimension defaults), and indeed no Rough Turning operation is
synthesized — the comparison is strict. -/
theorem rough_turning_iff_diameter_witness :
    CAPP.is_machinable CAPP.sampleA = true ∧
    ((CAPP.generate_operations CAPP.sampleCfg CAPP.sampleA).any
        (fun o => decide (o.name = "Rough Turning")) =
      decide (20 < (CAPP.format_dimensions CAPP.sampleA).diameter)) :=
  ⟨rfl, rough_turning_iff_diameter CAPP.sampleCfg CAPP.sampleA rfl⟩

/-- C8: on an empty axis-cue list the axis fitter returns the sentinel:
`available = false`, default axis (0, 0, 1), both aligned ratios 0 and
mean misalignment 90 degrees. -/
theorem axis_fit_empty_sentinel :
    (StepAnalyzer.compute_best_fit_axis []).available = false ∧
    (StepAnalyzer.compute_best_fit_axis []).best = ⟨0, 0, 1⟩ ∧
    (StepAnalyzer.compute_best_fit_axis []).axis_x = 0 ∧
    (StepAnalyzer.compute_best_fit_axis []).axis_y = 0 ∧
    (StepAnalyzer.compute_best_fit_axis []).axis_z = 1 ∧
    (StepAnalyzer.compute_best_fit_axis []).aligned_ratio_8deg = 0 ∧
    (StepAnalyzer.compute_best_fit_axis []).aligned_ratio_15deg = 0 ∧
    (StepAnalyzer.compute_best_fit_axis []).mean_misalignment_deg = 90 :=
  ⟨rfl, rfl, rfl, rfl, rfl, rfl, rfl, rfl⟩

/-- C7: for every list of unit axis cues, both aligned ratios lie in [0, 1]
and the strict (8°) ratio is at most the relaxed (15°) ratio, because the
strict cone is contained in the relaxed cone. -/
theorem aligned_ratio_cone_containment (cues : List StepAnalyzer.Vec3)
    (h : ∀ v ∈ cues, StepAnalyzer.vmag v = 1) :
    0 ≤ (StepAnalyzer.compute_best_fit_axis cues).aligned_ratio_8deg ∧
    (StepAnalyzer.compute_best_fit_axis cues).aligned_ratio_8deg ≤
      (StepAnalyzer.compute_best_fit_axis cues).aligned_ratio_15deg ∧
    (StepAnalyzer.compute_best_fit_axis cues).aligned_ratio_15deg ≤ 1 := by
  rcases cues with _ | ⟨seed, rest⟩
  · norm_num [StepAnalyzer.compute_best_fit_axis]
  · simp only [StepAnalyzer.compute_best_fit_axis]
    have hlen : (0 : ℝ) < (((seed :: rest).length : ℕ) : ℝ) := by
      have : (0 : ℝ) ≤ (rest.length : ℝ) := Nat.cast_nonneg _
      simp only [List.length_cons, Nat.cast_add, Nat.cast_one]
      linarith
    refine ⟨by positivity, ?_, ?_⟩
    · apply (div_le_div_iff_of_pos_right hlen).mpr
      apply Nat.cast_le.mpr
      apply List.countP_mono_left
      intro x _ hx
      rw [decide_eq_true_eq] at hx ⊢
      exact le_trans StepAnalyzer.cos15_le_cos8 hx
    · apply (div_le_one hlen).mpr
      exact Nat.cast_le.mpr (List.countP_le_length _)

/-- C7 witness: a single cue (0, 0, 1) is a unit vector and its axis fit
satisfies the ratio bounds and containment. -/
theorem aligned_ratio_cone_containment_witness :
    (∀ v ∈ [(⟨0, 0, 1⟩ : StepAnalyzer.Vec3)], StepAnalyzer.vmag v = 1) ∧
    (0 ≤ (StepAnalyzer.compute_best_fit_axis
        [(⟨0, 0, 1⟩ : StepAnalyzer.Vec3)]).aligned_ratio_8deg ∧
    (StepAnalyzer.compute_best_fit_axis
        [(⟨0, 0, 1⟩ : StepAnalyzer.Vec3)]).aligned_ratio_8deg ≤
      (StepAnalyzer.compute_best_fit_axis
        [(⟨0, 0, 1⟩ : StepAnalyzer.Vec3)]).aligned_ratio_15deg ∧
    (StepAnalyzer.compute_best_fit_axis
        [(⟨0, 0, 1⟩ : StepAnalyzer.Vec3)]).aligned_ratio_15deg ≤ 1) :=
  have hu : ∀ v ∈ [(⟨0, 0, 1⟩ : StepAnalyzer.Vec3)], StepAnalyzer.vmag v = 1 := by
    intro v hv
    simp only [List.mem_singleton] at hv
    subst hv
    show Real.sqrt ((0 : ℝ) ^ 2 + (0 : ℝ) ^ 2 + (1 : ℝ) ^ 2) = 1
    norm_num
  ⟨hu, aligned_ratio_cone_containment _ hu⟩

/-- C10: for every nonempty list of unit axis cues, the sign-adjusted
accumulated sum has dot product at least 1 with the seed cue, hence
magnitude at least 1, so `_normalize_vector` succeeds (the 1e-9 fall-back
branch is unreachable) and the best axis is a unit vector. -/
theorem best_axis_unit (seed : StepAnalyzer.Vec3) (rest : List StepAnalyzer.Vec3)
    (h : ∀ v ∈ seed :: rest, StepAnalyzer.vmag v = 1) :
    1 ≤ StepAnalyzer.vdot seed (StepAnalyzer.signed_accum seed rest) ∧
    1 ≤ StepAnalyzer.vmag (StepAnalyzer.signed_accum seed rest) ∧
    (∃ b, StepAnalyzer.normalize_vector (StepAnalyzer.signed_accum seed rest) = some b ∧
      (StepAnalyzer.compute_best_fit_axis (seed :: rest)).best = b ∧
      StepAnalyzer.vmag b = 1) := by
  have hseed : StepAnalyzer.vmag seed = 1 := h seed (List.mem_cons_self _ _)
  have hdot1 : StepAnalyzer.vdot seed seed = 1 :=
    StepAnalyzer.vdot_self_eq_one_of_unit seed hseed
  have hd : 1 ≤ StepAnalyzer.vdot seed (StepAnalyzer.signed_accum seed rest) :=
    StepAnalyzer.one_le_vdot_signed_accum seed rest hdot1
  set accum := StepAnalyzer.signed_accum seed rest with haccum
  have hcs := StepAnalyzer.vdot_le_vmag_mul_vmag seed accum
  have hm : 1 ≤ StepAnalyzer.vmag accum := by
    rw [hseed, one_mul] at hcs
    linarith
  have hnle : ¬ StepAnalyzer.vmag accum ≤ 1e-9 := by
    intro hc
    norm_num at hc
    linarith
  have hmpos : 0 < StepAnalyzer.vmag accum := by linarith
  have hS : 0 ≤ accum.x ^ 2 + accum.y ^ 2 + accum.z ^ 2 := by positivity
  have hm2 : (StepAnalyzer.vmag accum) ^ 2 = accum.x ^ 2 + accum.y ^ 2 + accum.z ^ 2 :=
    Real.sq_sqrt hS
  have hnorm : StepAnalyzer.normalize_vector accum =
      some ⟨accum.x / StepAnalyzer.vmag accum, accum.y / StepAnalyzer.vmag accum,
        accum.z / StepAnalyzer.vmag accum⟩ := by
    unfold StepAnalyzer.normalize_vector
    rw [if_neg hnle]
  refine ⟨hd, hm, ⟨⟨accum.x / StepAnalyzer.vmag accum, accum.y / StepAnalyzer.vmag accum,
    accum.z / StepAnalyzer.vmag accum⟩, hnorm, ?_, ?_⟩⟩
  · simp only [StepAnalyzer.compute_best_fit_axis]
    rw [← haccum, hnorm]
    rfl
  · have hsum : (accum.x / StepAnalyzer.vmag accum) ^ 2 +
        (accum.y / StepAnalyzer.vmag accum) ^ 2 +
        (accum.z / StepAnalyzer.vmag accum) ^ 2 = 1 := by
      have hmne : StepAnalyzer.vmag accum ≠ 0 := ne_of_gt hmpos
      field_simp
      rw [← hm2]
    show Real.sqrt ((accum.x / StepAnalyzer.vmag accum) ^ 2 +
      (accum.y / StepAnalyzer.vmag accum) ^ 2 +
      (accum.z / StepAnalyzer.vmag accum) ^ 2) = 1
    rw [hsum, Real.sqrt_one]

/-- C10 witness: the one-cue list [(0, 0, 1)] consists of unit vectors and
its accumulated sum normalizes to a unit best axis. -/
theorem best_axis_unit_witness :
    (∀ v ∈ (⟨0, 0, 1⟩ : StepAnalyzer.Vec3) :: ([] : List StepAnalyzer.Vec3),
      StepAnalyzer.vmag v = 1) ∧
    (1 ≤ StepAnalyzer.vdot ⟨0, 0, 1⟩ (StepAnalyzer.signed_accum ⟨0, 0, 1⟩ []) ∧
    1 ≤ StepAnalyzer.vmag (StepAnalyzer.signed_accum ⟨0, 0, 1⟩ []) ∧
    (∃ b, StepAnalyzer.normalize_vector (StepAnalyzer.signed_accum ⟨0, 0, 1⟩ []) = some b ∧
      (StepAnalyzer.compute_best_fit_axis
        ((⟨0, 0, 1⟩ : StepAnalyzer.Vec3) :: [])).best = b ∧
      StepAnalyzer.vmag b = 1)) :=
  have hu : ∀ v ∈ (⟨0, 0, 1⟩ : StepAnalyzer.Vec3) :: ([] : List StepAnalyzer.Vec3),
      StepAnalyzer.vmag v = 1 := by
    intro v hv
    simp only [List.mem_singleton] at hv
    subst hv
    show Real.sqrt ((0 : ℝ) ^ 2 + (0 : ℝ) ^ 2 + (1 : ℝ) ^ 2) = 1
    norm_num
  ⟨hu, best_axis_unit ⟨0, 0, 1⟩ [] hu⟩
